import Mathlib

/-!
Shallow embedding of the OSRS Trade Tracker ingestion-and-aggregation core:
the SQLite-backed record store (database/db.js) and the CSV import
orchestrator (routes/index.js).

Modelling conventions:
* A stored table row is a `Record`; the in-memory store state is the list of
  rows in insertion order (SQLite rowids are ascending, no deletes exist).
* SQL `NULL`-able text columns are `Option String`; columns declared
  `NOT NULL` (account, item, status) are plain `String` on stored rows.
* SQL three-valued equality on nullable columns (`col = ?`) is `sqlEqOpt` /
  `sqlEqCol`: a `NULL` on either side compares false, as in SQLite.
* The `UNIQUE(first_buy_time, last_sell_time, item)` constraint follows
  SQLite semantics: a row with a `NULL` in a constrained column never
  conflicts.  `INSERT OR IGNORE` skips the row (changes = 0) on a UNIQUE or
  NOT NULL violation.
* `DATE(import_date)` values are modelled as day numbers (`Nat`).
* JavaScript number division in the timeline is modelled exactly over `Rat`.
* `Math.floor(Math.random() * 10)` is modelled as an injected draw list
  `rands : List Nat`, one draw per day, reduced `% 10` into the 0..9 range
  the source expression produces.
-/

namespace OSRSTracker

/-- A stored row of the `trading_records` table (db.js `createTables`).
`first_buy_time` and `last_sell_time` are nullable; `account`, `item`,
`status` are NOT NULL; numeric columns default 0; `import_date` is the
capture-on-write timestamp, at day granularity. -/
structure Record where
  id : Nat
  first_buy_time : Option String
  last_sell_time : Option String
  account : String
  item : String
  status : String
  bought : Int
  sold : Int
  avg_buy_price : Int
  avg_sell_price : Int
  tax : Int
  profit : Int
  profit_ea : Int
  import_date : Nat
deriving DecidableEq

/-- The record object built in `processCsvFile` (routes/index.js) and passed
to `db.insertRecord`: string fields may be `undefined` (modelled `none`),
numeric fields are already coerced by `parseInt(...) || 0`. -/
structure Draft where
  firstBuyTime : Option String
  lastSellTime : Option String
  account : Option String
  item : Option String
  status : Option String
  bought : Int
  sold : Int
  avgBuyPrice : Int
  avgSellPrice : Int
  tax : Int
  profit : Int
  profitEa : Int
deriving DecidableEq

/-- SQL equality `a = b` between two nullable text values: `NULL` on either
side yields (three-valued) false. -/
def sqlEqOpt (a b : Option String) : Bool :=
  match a, b with
  | some x, some y => x == y
  | _, _ => false

/-- SQL equality `col = ?` between a NOT NULL column value and a bound
parameter that may be `NULL`. -/
def sqlEqCol (col : String) (v : Option String) : Bool :=
  match v with
  | some y => col == y
  | none => false

/-- db.js `recordExists`: `SELECT COUNT(*) ... WHERE first_buy_time = ? AND
last_sell_time = ? AND item = ?`, resolved as `count > 0`. -/
def recordExists (st : List Record) (f l i : Option String) : Bool :=
  st.any fun r =>
    sqlEqOpt r.first_buy_time f && sqlEqOpt r.last_sell_time l && sqlEqCol r.item i

/-- Whether a stored row conflicts with a draft under
`UNIQUE(first_buy_time, last_sell_time, item)`: per SQLite, a `NULL` in a
constrained column never conflicts. -/
def uniqueConflict (r : Record) (d : Draft) : Bool :=
  sqlEqOpt r.first_buy_time d.firstBuyTime &&
  sqlEqOpt r.last_sell_time d.lastSellTime &&
  sqlEqCol r.item d.item

/-- db.js `insertRecord`: `INSERT OR IGNORE` of the draft, with
`import_date` captured at insert time (`CURRENT_TIMESTAMP`, here `today`)
and the rowid assigned sequentially.  Returns the new store and `changes`
(0 when the row was ignored because of a NOT NULL or UNIQUE violation). -/
def insertRecord (today : Nat) (st : List Record) (d : Draft) : List Record × Nat :=
  match d.account, d.item, d.status with
  | some acc, some it, some stt =>
    if st.any (fun r => uniqueConflict r d) then (st, 0)
    else
      (st ++ [{ id := st.length + 1,
                first_buy_time := d.firstBuyTime,
                last_sell_time := d.lastSellTime,
                account := acc,
                item := it,
                status := stt,
                bought := d.bought,
                sold := d.sold,
                avg_buy_price := d.avgBuyPrice,
                avg_sell_price := d.avgSellPrice,
                tax := d.tax,
                profit := d.profit,
                profit_ea := d.profitEa,
                import_date := today }], 1)
  | _, _, _ => (st, 0)

/-- Ordering used by `ORDER BY profit DESC` (db.js `getDashboardStats`,
`addTopItemsToDaily`). -/
def profGE (a b : Record) : Prop := b.profit ≤ a.profit

instance : DecidableRel profGE := fun a b =>
  inferInstanceAs (Decidable (b.profit ≤ a.profit))

instance : IsTotal Record profGE := ⟨fun a b => le_total b.profit a.profit⟩

instance : IsTrans Record profGE := ⟨fun _ _ _ h1 h2 => le_trans h2 h1⟩

/-- Ordering used by `ORDER BY totalProfit DESC` on the per-item groups. -/
def itemGE (a b : String × Int) : Prop := b.2 ≤ a.2

instance : DecidableRel itemGE := fun a b =>
  inferInstanceAs (Decidable (b.2 ≤ a.2))

instance : IsTotal (String × Int) itemGE := ⟨fun a b => le_total b.2 a.2⟩

instance : IsTrans (String × Int) itemGE := ⟨fun _ _ _ h1 h2 => le_trans h2 h1⟩

/-- Ordering used by `ORDER BY import_date DESC` (db.js `getRecords`). -/
def importDateGE (a b : Record) : Prop := b.import_date ≤ a.import_date

instance : DecidableRel importDateGE := fun a b =>
  inferInstanceAs (Decidable (b.import_date ≤ a.import_date))

/-- `SUM(profit) ... WHERE status = 'FINISHED'` — SQLite text `=` is
case-sensitive (BINARY collation); an empty SUM is NULL, which the JS
`row.total || row.count || 0` turns into 0, coinciding with the empty sum. -/
def finishedRecords (st : List Record) : List Record :=
  st.filter fun r => r.status == "FINISHED"

/-- Distinct items among FINISHED records, in first-occurrence order
(the GROUP BY keys of the `topItems` query). -/
def finishedItems (st : List Record) : List String :=
  ((finishedRecords st).map (fun r => r.item)).dedup

/-- Summed profit of one item group over FINISHED records. -/
def itemProfit (st : List Record) (it : String) : Int :=
  (((finishedRecords st).filter (fun r => r.item == it)).map (fun r => r.profit)).sum

/-- Result shape of db.js `getDashboardStats`. -/
structure DashboardStats where
  totalProfit : Int
  completedFlips : Nat
  totalRecords : Nat
  topFlips : List Record
  topItems : List (String × Int)
deriving DecidableEq

/-- db.js `getDashboardStats`: the five queries over the store.  All status
comparisons are SQL `=` (case-sensitive); `topFlips` is
`ORDER BY profit DESC LIMIT 10` with no status filter; `topItems` groups
FINISHED records by item, `ORDER BY totalProfit DESC LIMIT 10`. -/
def getDashboardStats (st : List Record) : DashboardStats :=
  { totalProfit := ((finishedRecords st).map (fun r => r.profit)).sum,
    completedFlips := (finishedRecords st).length,
    totalRecords := st.length,
    topFlips := (List.insertionSort profGE st).take 10,
    topItems :=
      (List.insertionSort itemGE
        ((finishedItems st).map (fun it => (it, itemProfit st it)))).take 10 }

/-- SQLite `UPPER(x)`: ASCII uppercase fold of the text value. -/
def sqlUpper (s : String) : String :=
  String.mk (s.data.map Char.toUpper)

/-- db.js `getRecords`: optional status filter using
`UPPER(status) = UPPER(?)` (case-insensitive), `ORDER BY import_date DESC`.
A JS-falsy filter (absent route param or empty string) means no filter. -/
def getRecords (st : List Record) (status : Option String) : List Record :=
  let filtered :=
    match status with
    | none => st
    | some s => if s.isEmpty then st else st.filter fun r => sqlUpper r.status == sqlUpper s
  List.insertionSort importDateGE filtered

/-- One day's rollup (db.js `getDailyReturns` row plus the
`addTopItemsToDaily` enrichment). -/
structure DailyBucket where
  date : Nat
  totalTrades : Nat
  dailyProfit : Int
  finishedTrades : Nat
  activeTrades : Nat
  topItem : String := "No completed trades"
  topItemProfit : Int := 0
deriving DecidableEq

/-- The rollup of one calendar date (one output row of the GROUP BY query in
`getDailyReturns`, enriched by `addTopItemsToDaily`).  `SUM(CASE WHEN
status = 'FINISHED' THEN profit ELSE 0 END)` equals the sum over the
FINISHED subset of the day; the top item is the head of the day's FINISHED
records ordered by profit descending (LIMIT 1). -/
def bucketFor (st : List Record) (d : Nat) : DailyBucket :=
  let dayRecs := st.filter fun r => r.import_date == d
  let fin := dayRecs.filter fun r => r.status == "FINISHED"
  let best := (List.insertionSort profGE fin).head?
  { date := d,
    totalTrades := dayRecs.length,
    dailyProfit := (fin.map (fun r => r.profit)).sum,
    finishedTrades := fin.length,
    activeTrades := (dayRecs.filter (fun r => r.status == "SELLING")).length,
    topItem := (best.map (fun r => r.item)).getD "No completed trades",
    topItemProfit := (best.map (fun r => r.profit)).getD 0 }

/-- Ordering used by `ORDER BY date DESC` on daily rows. -/
def dateGENat (a b : Nat) : Prop := b ≤ a

instance : DecidableRel dateGENat := fun a b =>
  inferInstanceAs (Decidable (b ≤ a))

/-- The distinct `DATE(import_date)` group keys, ordered date descending. -/
def datesDesc (st : List Record) : List Nat :=
  List.insertionSort dateGENat ((st.map (fun r => r.import_date)).dedup)

/-- db.js `getDailyReturns`: one bucket per distinct calendar date, ordered
date descending. -/
def getDailyReturns (st : List Record) : List DailyBucket :=
  (datesDesc st).map (bucketFor st)

/-- One element of the timeline view (a daily row mutated in place by
`getTimelineData`'s forEach). -/
structure TimelinePoint where
  date : Nat
  items : Nat
  flips : Nat
  netWorth : Int
  roi : Rat
  growth : Rat
deriving DecidableEq

/-- The body of the `dailyData.forEach(day => ...)` loop in
`getTimelineData`, for one day: `rand` is this day's injected
`Math.floor(Math.random() * 10)` draw, `cum` the running
`cumulativeNetWorth` before this day, `prev` the `previousDayNetWorth`. -/
def stepDay (u : Int) (rand : Nat) (cum prev : Int) (day : DailyBucket) : TimelinePoint :=
  let totalInvested : Int := (day.finishedTrades : Int) * u
  { date := day.date,
    items := rand % 10 + 1,
    flips := day.totalTrades,
    netWorth := cum + day.dailyProfit,
    roi := if totalInvested > 0 then ((day.dailyProfit * 100 : Int) : Rat) / (totalInvested : Rat) else 0,
    growth := if prev > 0 then ((day.dailyProfit * 100 : Int) : Rat) / ((prev : Int) : Rat) else 0 }

/-- The full forEach loop of `getTimelineData`: threads
`cumulativeNetWorth` and `previousDayNetWorth` through the days (both are
set to `cumulativeNetWorth` after each day), consuming one random draw per
day. -/
def processDays (u : Int) (rands : List Nat) (cum prev : Int) :
    List DailyBucket → List TimelinePoint
  | [] => []
  | day :: rest =>
    stepDay u (rands.headD 0) cum prev day ::
      processDays u rands.tail (cum + day.dailyProfit) (cum + day.dailyProfit) rest

/-- Ascending date order used by the first `dailyData.sort`. -/
def bucketDateLE (a b : DailyBucket) : Prop := a.date ≤ b.date

instance : DecidableRel bucketDateLE := fun a b =>
  inferInstanceAs (Decidable (a.date ≤ b.date))

/-- Descending date order used by the final `dailyData.sort` for display. -/
def pointDateGE (a b : TimelinePoint) : Prop := b.date ≤ a.date

instance : DecidableRel pointDateGE := fun a b =>
  inferInstanceAs (Decidable (b.date ≤ a.date))

/-- db.js `getTimelineData` from the daily rows onward: sort ascending by
date, run the forEach with the hardcoded `startingNetWorth = 198000000`
(198M GP) and the hardcoded per-trade investment estimate `100000`, then
re-sort descending by date for display. -/
def timelineFromDaily (rands : List Nat) (dailyData : List DailyBucket) : List TimelinePoint :=
  let asc := List.insertionSort bucketDateLE dailyData
  List.insertionSort pointDateGE (processDays 100000 rands 198000000 198000000 asc)

/-- db.js `getTimelineData`: daily returns piped into the timeline loop. -/
def getTimelineData (rands : List Nat) (st : List Record) : List TimelinePoint :=
  timelineFromDaily rands (getDailyReturns st)

/-- Modelled from the spec: the timeline projection with the starting net
worth `s` and the unit-investment estimate `u` as externally supplied
configuration inputs rather than embedded constants (spec sections 4.4 and
6; this parameterized core is absent from the source, which hardcodes both
values inside `getTimelineData`). -/
def timelineCore (s u : Int) (rands : List Nat) (dailyData : List DailyBucket) :
    List TimelinePoint :=
  let asc := List.insertionSort bucketDateLE dailyData
  List.insertionSort pointDateGE (processDays u rands s s asc)

/-! Import orchestrator (routes/index.js `processCsvFile`). -/

/-- A raw CSV row: the column-name to cell-text mapping produced by the CSV
reader. -/
abbrev RawRow : Type := List (String × String)

/-- JS property access `row[name]`: `undefined` when the column is absent. -/
def rowGet (row : RawRow) (name : String) : Option String :=
  (List.find? (fun p => p.1 == name) row).map (fun p => p.2)

/-- JS `a || b` on two possibly-undefined strings: the empty string and
`undefined` are falsy. -/
def jsOr (a b : Option String) : Option String :=
  match a with
  | some s => if s.isEmpty then b else some s
  | none => b

/-- Value of the leading decimal-digit run, `none` when it is empty. -/
def leadingNat (cs : List Char) : Option Nat :=
  let ds := cs.takeWhile Char.isDigit
  if ds.isEmpty then none
  else some (ds.foldl (fun a c => a * 10 + (c.toNat - 48)) 0)

/-- JS `parseInt(s)` on a string, modelled for base-10 inputs: skip leading
whitespace, optional sign, read the leading digit run; `none` stands for
`NaN`.  (The hexadecimal `0x` prefix of `parseInt` is not modelled; no
claim depends on it.) -/
def jsParseIntStr (s : String) : Option Int :=
  let cs := s.data.dropWhile fun c => c == ' ' || c == '\t' || c == '\n' || c == '\r'
  match cs with
  | '-' :: rest => (leadingNat rest).map fun n => -(n : Int)
  | '+' :: rest => (leadingNat rest).map fun n => (n : Int)
  | _ => (leadingNat cs).map fun n => (n : Int)

/-- JS `parseInt(v)` where `v` may be `undefined`
(`parseInt(undefined)` is `NaN`). -/
def jsParseIntOpt (v : Option String) : Option Int :=
  match v with
  | some s => jsParseIntStr s
  | none => none

/-- JS `parseInt(v) || 0`: `NaN` (and 0 itself) collapse to 0. -/
def parseIntOr0 (v : Option String) : Int :=
  (jsParseIntOpt v).getD 0

/-- The row-to-record normalization inside `processCsvFile`: each field
tries the human-readable header first, then the snake_case one, and the
numeric fields run through `parseInt(...) || 0`. -/
def normalizeRow (row : RawRow) : Draft :=
  { firstBuyTime := jsOr (rowGet row "First buy time") (rowGet row "first_buy_time"),
    lastSellTime := jsOr (rowGet row "Last sell time") (rowGet row "last_sell_time"),
    account := jsOr (rowGet row "Account") (rowGet row "account"),
    item := jsOr (rowGet row "Item") (rowGet row "item"),
    status := jsOr (rowGet row "Status") (rowGet row "status"),
    bought := parseIntOr0 (jsOr (rowGet row "Bought") (rowGet row "bought")),
    sold := parseIntOr0 (jsOr (rowGet row "Sold") (rowGet row "sold")),
    avgBuyPrice := parseIntOr0 (jsOr (rowGet row "Avg. buy price") (rowGet row "avg_buy_price")),
    avgSellPrice := parseIntOr0 (jsOr (rowGet row "Avg. sell price") (rowGet row "avg_sell_price")),
    tax := parseIntOr0 (jsOr (rowGet row "Tax") (rowGet row "tax")),
    profit := parseIntOr0 (jsOr (rowGet row "Profit") (rowGet row "profit")),
    profitEa := parseIntOr0 (jsOr (rowGet row "Profit ea.") (rowGet row "profit_ea")) }

/-- Outcome of the per-row body: duplicate skipped, inserted, or insert
ignored by the store (changes = 0, neither counter moves). -/
inductive RowOutcome where
  | new : RowOutcome
  | dup : RowOutcome
  | skipped : RowOutcome
deriving DecidableEq

/-- The per-row try-block of `processCsvFile`: normalize, check
`recordExists` on the natural key, insert when absent, and classify by
`result.changes > 0`. -/
def processRow (today : Nat) (st : List Record) (row : RawRow) : List Record × RowOutcome :=
  let record := normalizeRow row
  if recordExists st record.firstBuyTime record.lastSellTime record.item then
    (st, RowOutcome.dup)
  else
    let res := insertRecord today st record
    if res.2 > 0 then (res.1, RowOutcome.new) else (res.1, RowOutcome.skipped)

/-- State of the import loop: the store plus the three batch counters. -/
structure LoopOut where
  store : List Record
  n : Nat
  d : Nat
  e : Nat
deriving DecidableEq

/-- The `for (const row of results)` loop of `processCsvFile`.  Each row
carries a fault flag modelling whether its store operations raise (a
rejected promise from sqlite); the surrounding try/catch then increments
`errors` and the loop continues with the next row, store unchanged. -/
def importLoop (today : Nat) (st : List Record) : List (RawRow × Bool) → LoopOut
  | [] => { store := st, n := 0, d := 0, e := 0 }
  | (row, fault) :: rest =>
    if fault then
      let r := importLoop today st rest
      { r with e := r.e + 1 }
    else
      let pr := processRow today st row
      let r := importLoop today pr.1 rest
      match pr.2 with
      | RowOutcome.new => { r with n := r.n + 1 }
      | RowOutcome.dup => { r with d := r.d + 1 }
      | RowOutcome.skipped => r

/-- Result object resolved by `processCsvFile`. -/
structure ImportResult where
  newRecords : Nat
  duplicates : Nat
  errors : Nat
  totalInDb : Nat
deriving DecidableEq

/-- routes/index.js `processCsvFile` after the CSV rows are collected: run
the loop, then read `totalInDb` as the store's `COUNT(*)` via
`getDashboardStats().totalRecords`. -/
def processCsvFile (today : Nat) (st : List Record) (rows : List (RawRow × Bool)) :
    List Record × ImportResult :=
  let r := importLoop today st rows
  (r.store,
   { newRecords := r.n,
     duplicates := r.d,
     errors := r.e,
     totalInDb := (getDashboardStats r.store).totalRecords })

/-! Reference lists used to state the timeline properties, and concrete
fixtures used by the counterexamples and witnesses. -/

/-- The running net worths produced by accumulating a profit sequence onto a
starting value: element k is the net worth after day k. -/
def netWorths (s : Int) : List Int → List Int
  | [] => []
  | p :: ps => (s + p) :: netWorths (s + p) ps

/-- The growth percentages produced by the timeline loop on a profit
sequence, threading `previousDayNetWorth` (`prev`) and
`cumulativeNetWorth` (`cum`) exactly as the loop does. -/
def growthsAux (prev cum : Int) : List Int → List Rat
  | [] => []
  | p :: ps =>
    (if prev > 0 then ((p * 100 : Int) : Rat) / ((prev : Int) : Rat) else 0) ::
      growthsAux (cum + p) (cum + p) ps

/-- Neutral element passed to `List.getD` on timeline points. -/
def defaultPoint : TimelinePoint :=
  { date := 0, items := 0, flips := 0, netWorth := 0, roi := 0, growth := 0 }

/-- Neutral element passed to `List.getD` on daily buckets. -/
def defaultBucket : DailyBucket :=
  { date := 0, totalTrades := 0, dailyProfit := 0, finishedTrades := 0, activeTrades := 0 }

/-- A stored record whose status is "finished" in lowercase. -/
def recLow : Record :=
  { id := 1, first_buy_time := some "T1", last_sell_time := some "T2",
    account := "main", item := "Rune scimitar", status := "finished",
    bought := 1, sold := 1, avg_buy_price := 0, avg_sell_price := 0,
    tax := 0, profit := 5, profit_ea := 0, import_date := 1 }

/-- A stored record with a fully present natural key. -/
def rKey : Record :=
  { id := 1, first_buy_time := some "T1", last_sell_time := some "T2",
    account := "main", item := "Rune scimitar", status := "FINISHED",
    bought := 1, sold := 1, avg_buy_price := 0, avg_sell_price := 0,
    tax := 0, profit := 5, profit_ea := 0, import_date := 1 }

/-- A draft carrying the same natural key as `rKey` but a different profit. -/
def dKey : Draft :=
  { firstBuyTime := some "T1", lastSellTime := some "T2",
    account := some "main", item := some "Rune scimitar", status := some "FINISHED",
    bought := 0, sold := 0, avgBuyPrice := 0, avgSellPrice := 0,
    tax := 0, profit := 7, profitEa := 0 }

/-- A stored record whose first_buy_time is NULL. -/
def rNullKey : Record :=
  { id := 1, first_buy_time := none, last_sell_time := some "T2",
    account := "main", item := "Rune scimitar", status := "FINISHED",
    bought := 0, sold := 0, avg_buy_price := 0, avg_sell_price := 0,
    tax := 0, profit := 5, profit_ea := 0, import_date := 1 }

/-- A draft whose natural-key triple is field-for-field equal to
`rNullKey`'s (including the NULL first_buy_time). -/
def dNullKey : Draft :=
  { firstBuyTime := none, lastSellTime := some "T2",
    account := some "main", item := some "Rune scimitar", status := some "FINISHED",
    bought := 0, sold := 0, avgBuyPrice := 0, avgSellPrice := 0,
    tax := 0, profit := 7, profitEa := 0 }

/-- A draft missing first_buy_time and also missing item (a NOT NULL
column). -/
def dNullItem : Draft :=
  { firstBuyTime := none, lastSellTime := some "T2",
    account := some "main", item := none, status := some "FINISHED",
    bought := 0, sold := 0, avgBuyPrice := 0, avgSellPrice := 0,
    tax := 0, profit := 0, profitEa := 0 }

/-- Day 1 of the spec scenario: daily profit 10. -/
def bucketA : DailyBucket :=
  { date := 1, totalTrades := 1, dailyProfit := 10, finishedTrades := 1, activeTrades := 0 }

/-- Day 2 of the spec scenario: daily profit -5. -/
def bucketB : DailyBucket :=
  { date := 2, totalTrades := 1, dailyProfit := -5, finishedTrades := 1, activeTrades := 0 }

/-- A day with a loss large enough to push the running net worth below 0
from the hardcoded 198000000 start. -/
def bucketLoss : DailyBucket :=
  { date := 1, totalTrades := 1, dailyProfit := -300000000, finishedTrades := 1, activeTrades := 0 }

/-- The day after the large loss. -/
def bucketAfter : DailyBucket :=
  { date := 2, totalTrades := 1, dailyProfit := 10, finishedTrades := 1, activeTrades := 0 }

/-- A raw CSV row whose Profit cell is the unparsable string "abc". -/
def abcRow : RawRow :=
  [("First buy time", "T1"), ("Last sell time", "T2"), ("Account", "main"),
   ("Item", "Rune scimitar"), ("Status", "FINISHED"), ("Profit", "abc")]

/-- The store after importing `abcRow` into an empty store. -/
def stAbc : List Record := (processRow 0 [] abcRow).1

/-! Helper lemmas about the store operations. -/

theorem sqlEqOpt_none_right (a : Option String) : sqlEqOpt a none = false := by
  cases a <;> rfl

theorem uniqueConflict_null (r : Record) (d : Draft)
    (h : d.firstBuyTime = none ∨ d.lastSellTime = none) : uniqueConflict r d = false := by
  rcases h with h | h <;> simp [uniqueConflict, h, sqlEqOpt_none_right]

theorem recordExists_null (st : List Record) (f l i : Option String)
    (h : f = none ∨ l = none) : recordExists st f l i = false := by
  rcases h with h | h <;> subst h <;>
    simp [recordExists, sqlEqOpt_none_right]

theorem insertRecord_null_key (today : Nat) (st : List Record) (d : Draft)
    (h : d.firstBuyTime = none ∨ d.lastSellTime = none)
    (ha : d.account.isSome) (hi : d.item.isSome) (hs : d.status.isSome) :
    (insertRecord today st d).2 = 1 ∧ (insertRecord today st d).1.length = st.length + 1 := by
  obtain ⟨acc, hacc⟩ := Option.isSome_iff_exists.mp ha
  obtain ⟨it, hit⟩ := Option.isSome_iff_exists.mp hi
  obtain ⟨stt, hstt⟩ := Option.isSome_iff_exists.mp hs
  have hc : st.any (fun r => uniqueConflict r d) = false := by
    simp only [List.any_eq_false]
    intro r _
    simp [uniqueConflict_null r d h]
  simp [insertRecord, hacc, hit, hstt, hc]

theorem insertRecord_cases (today : Nat) (st : List Record) (d : Draft) :
    insertRecord today st d = (st, 0) ∨
    ∃ r : Record, insertRecord today st d = (st ++ [r], 1) := by
  cases hacc : d.account with
  | none => left; simp [insertRecord, hacc]
  | some acc =>
    cases hit : d.item with
    | none => left; simp [insertRecord, hacc, hit]
    | some it =>
      cases hstt : d.status with
      | none => left; simp [insertRecord, hacc, hit, hstt]
      | some stt =>
        cases hc : st.any (fun r => uniqueConflict r d) with
        | true => left; simp [insertRecord, hacc, hit, hstt, hc]
        | false =>
          right
          exact ⟨{ id := st.length + 1, first_buy_time := d.firstBuyTime,
                   last_sell_time := d.lastSellTime, account := acc, item := it,
                   status := stt, bought := d.bought, sold := d.sold,
                   avg_buy_price := d.avgBuyPrice, avg_sell_price := d.avgSellPrice,
                   tax := d.tax, profit := d.profit, profit_ea := d.profitEa,
                   import_date := today },
                 by simp [insertRecord, hacc, hit, hstt, hc]⟩

theorem processRow_null_key (today : Nat) (st : List Record) (row : RawRow)
    (h : (normalizeRow row).firstBuyTime = none ∨ (normalizeRow row).lastSellTime = none)
    (ha : (normalizeRow row).account.isSome) (hi : (normalizeRow row).item.isSome)
    (hs : (normalizeRow row).status.isSome) :
    (processRow today st row).2 = RowOutcome.new ∧
    (processRow today st row).1.length = st.length + 1 := by
  have hex := recordExists_null st (normalizeRow row).firstBuyTime
    (normalizeRow row).lastSellTime (normalizeRow row).item h
  have hins := insertRecord_null_key today st (normalizeRow row) h ha hi hs
  rcases insertRecord_cases today st (normalizeRow row) with hcase | ⟨r, hcase⟩
  · rw [hcase] at hins
    simp at hins
  · simp [processRow, hex, hcase]

/-- C2: insert is idempotent on the natural key — amended to require the
first_buy_time and last_sell_time of the colliding triple to be present
(non-NULL): when a stored record matches the draft's
(first_buy_time, last_sell_time, item) triple field-for-field and the two
time fields are non-NULL, the insert is a silent no-op, reporting
changes = 0 and leaving the store (count and stored field values)
unchanged. -/
theorem c2_idempotent_nonnull_key (today : Nat) (st : List Record) (d : Draft)
    (a b : String) (hf : d.firstBuyTime = some a) (hl : d.lastSellTime = some b)
    (hex : ∃ r ∈ st, r.first_buy_time = d.firstBuyTime ∧
      r.last_sell_time = d.lastSellTime ∧ some r.item = d.item) :
    insertRecord today st d = (st, 0) := by
  obtain ⟨r, hr, h1, h2, h3⟩ := hex
  have hc : st.any (fun x => uniqueConflict x d) = true := by
    refine List.any_eq_true.mpr ⟨r, hr, ?_⟩
    simp [uniqueConflict, sqlEqOpt, sqlEqCol, h1, h2, ← h3, hf, hl]
  cases hacc : d.account with
  | none => simp [insertRecord, hacc]
  | some acc =>
    cases hit : d.item with
    | none => simp [insertRecord, hacc, hit]
    | some it =>
      cases hstt : d.status with
      | none => simp [insertRecord, hacc, hit, hstt]
      | some stt => simp [insertRecord, hacc, hit, hstt, hc]

/-- C2 witness: with a fully present natural key already stored, a second
insert with the same triple but a different profit is a no-op. -/
theorem c2_witness : insertRecord 2 [rKey] dKey = ([rKey], 0) :=
  c2_idempotent_nonnull_key 2 [rKey] dKey "T1" "T2" (by decide) (by decide) (by decide)

/-- C2 counterexample: a draft whose (first_buy_time, last_sell_time, item)
triple is field-for-field equal to a stored record's — with first_buy_time
NULL on both sides — is nevertheless inserted (changes = 1, the count
grows), because the SQLite UNIQUE constraint treats NULLs as distinct. -/
theorem c2_counterexample :
    rNullKey.first_buy_time = dNullKey.firstBuyTime ∧
    rNullKey.last_sell_time = dNullKey.lastSellTime ∧
    some rNullKey.item = dNullKey.item ∧
    (insertRecord 2 [rNullKey] dNullKey).2 = 1 ∧
    (insertRecord 2 [rNullKey] dNullKey).1.length = 2 := by
  decide

/-- C10: for records missing first_buy_time or last_sell_time, the
existence check always answers false and deduplication is not enforced —
amended to add the proviso that the insert creates a new row only when the
NOT NULL columns (account, item, status) are present; importing the same
such row twice then stores it twice. -/
theorem c10_null_key_no_dedup :
    (∀ (st : List Record) (f l i : Option String),
        f = none ∨ l = none → recordExists st f l i = false)
  ∧ (∀ (today : Nat) (st : List Record) (d : Draft),
        d.firstBuyTime = none ∨ d.lastSellTime = none →
        d.account.isSome → d.item.isSome → d.status.isSome →
        (insertRecord today st d).2 = 1 ∧ (insertRecord today st d).1.length = st.length + 1)
  ∧ (∀ (today : Nat) (st : List Record) (row : RawRow),
        (normalizeRow row).firstBuyTime = none ∨ (normalizeRow row).lastSellTime = none →
        (normalizeRow row).account.isSome → (normalizeRow row).item.isSome →
        (normalizeRow row).status.isSome →
        (processRow today st row).2 = RowOutcome.new ∧
        (processRow today (processRow today st row).1 row).1.length = st.length + 2) := by
  refine ⟨fun st f l i h => recordExists_null st f l i h,
    fun today st d h ha hi hs => insertRecord_null_key today st d h ha hi hs,
    fun today st row h ha hi hs => ?_⟩
  have p1 := processRow_null_key today st row h ha hi hs
  have p2 := processRow_null_key today (processRow today st row).1 row h ha hi hs
  exact ⟨p1.1, by rw [p2.2, p1.2]⟩

/-- C10 witness: a draft with NULL first_buy_time but present NOT NULL
columns is inserted as a new row. -/
theorem c10_witness :
    (insertRecord 0 [] dNullKey).2 = 1 ∧
    (insertRecord 0 [] dNullKey).1.length = ([] : List Record).length + 1 :=
  c10_null_key_no_dedup.2.1 0 [] dNullKey (Or.inl (by decide)) (by decide) (by decide)
    (by decide)

/-- C10 counterexample: a record with first_buy_time absent whose item is
also absent is NOT inserted — `INSERT OR IGNORE` drops it on the NOT NULL
violation — contradicting the claim that every insert of a record missing
a key field creates a new row. -/
theorem c10_counterexample :
    dNullItem.firstBuyTime = none ∧
    (insertRecord 0 [] dNullItem).2 = 0 ∧
    (insertRecord 0 [] dNullItem).1.length = 0 := by
  decide

/-! Helper lemmas about the timeline loop. -/

theorem map_getD {α β : Type} (f : α → β) (d : α) (l : List α) :
    ∀ k : Nat, (l.map f).getD k (f d) = f (l.getD k d) := by
  induction l with
  | nil => intro k; simp
  | cons a t ih =>
    intro k
    cases k with
    | zero => simp
    | succ k =>
      simp only [List.map_cons, List.getD_cons_succ]
      exact ih k

theorem processDays_length (u : Int) (rands : List Nat) (cum prev : Int)
    (days : List DailyBucket) :
    (processDays u rands cum prev days).length = days.length := by
  induction days generalizing rands cum prev with
  | nil => rfl
  | cons d rest ih => simp [processDays, ih]

theorem processDays_map_netWorth (u : Int) (rands : List Nat) (cum prev : Int)
    (days : List DailyBucket) :
    (processDays u rands cum prev days).map (fun p => p.netWorth)
      = netWorths cum (days.map fun d => d.dailyProfit) := by
  induction days generalizing rands cum prev with
  | nil => rfl
  | cons d rest ih => simp [processDays, netWorths, stepDay, ih]

theorem netWorths_getD (s : Int) (l : List Int) :
    ∀ k : Nat, k < l.length → (netWorths s l).getD k 0 = s + (l.take (k + 1)).sum := by
  induction l generalizing s with
  | nil => intro k hk; simp at hk
  | cons p ps ih =>
    intro k hk
    cases k with
    | zero => simp [netWorths]
    | succ k =>
      have hk' : k < ps.length := by simpa using hk
      simp only [netWorths, List.getD_cons_succ, List.take_succ_cons, List.sum_cons]
      rw [ih (s + p) k hk']
      ring

theorem netWorths_getLastD (l : List Int) : ∀ s : Int, (netWorths s l).getLastD s = s + l.sum := by
  induction l with
  | nil => intro s; simp [netWorths]
  | cons p ps ih =>
    intro s
    simp only [netWorths, List.sum_cons]
    rw [List.getLastD_cons, ih (s + p)]
    ring

theorem processDays_map_growth (u : Int) (rands : List Nat) (cum prev : Int)
    (days : List DailyBucket) :
    (processDays u rands cum prev days).map (fun p => p.growth)
      = growthsAux prev cum (days.map fun d => d.dailyProfit) := by
  induction days generalizing rands cum prev with
  | nil => rfl
  | cons d rest ih => simp [processDays, growthsAux, stepDay, ih]

theorem growthsAux_getD_succ :
    ∀ (ps : List Int) (cum prev : Int) (k : Nat), k + 1 < ps.length →
      (growthsAux prev cum ps).getD (k + 1) 0
        = if 0 < (netWorths cum ps).getD k 0
          then ((ps.getD (k + 1) 0 * 100 : Int) : Rat)
                / (((netWorths cum ps).getD k 0 : Int) : Rat)
          else 0 := by
  intro ps
  induction ps with
  | nil => intro cum prev k hk; simp at hk
  | cons p tail ih =>
    intro cum prev k hk
    cases k with
    | zero =>
      cases tail with
      | nil => simp at hk
      | cons q t2 => simp [growthsAux, netWorths]
    | succ k =>
      have hk' : k + 1 < tail.length := by simpa using hk
      simp only [growthsAux, netWorths, List.getD_cons_succ]
      exact ih (cum + p) (cum + p) k hk'

theorem roi_if_eq (d : DailyBucket) :
    (if ((d.finishedTrades : Int) * 100000 : Int) > 0
     then ((d.dailyProfit * 100 : Int) : Rat) / ((((d.finishedTrades : Int) * 100000 : Int) : Int) : Rat)
     else 0)
      = if d.finishedTrades = 0 then 0
        else ((d.dailyProfit * 100 : Int) : Rat) / ((((d.finishedTrades : Int) * 100000 : Int) : Int) : Rat) := by
  by_cases hf : d.finishedTrades = 0
  · simp [hf]
  · have h0 : (0 : Int) < (d.finishedTrades : Int) := by
      exact_mod_cast Nat.pos_of_ne_zero hf
    have hp : (0 : Int) < (d.finishedTrades : Int) * 100000 :=
      mul_pos h0 (by norm_num)
    simp [hf, hp]

/-- C3: processing daily buckets in ascending (= list) order with starting
net worth s, the net worth recorded after day k is s plus the sum of the
first k+1 daily profits; the final recorded net worth is s plus the sum of
all daily profits; and the spec scenario (s = 100, profits 10 then -5)
yields net worths [110, 105] in ascending order. -/
theorem c3_networth_accumulation :
    (∀ (s u : Int) (rands : List Nat) (days : List DailyBucket) (k : Nat),
        k < days.length →
        ((processDays u rands s s days).getD k defaultPoint).netWorth
          = s + ((days.map fun d => d.dailyProfit).take (k + 1)).sum)
  ∧ (∀ (s u : Int) (rands : List Nat) (days : List DailyBucket),
        ((processDays u rands s s days).map (fun p => p.netWorth)).getLastD s
          = s + (days.map fun d => d.dailyProfit).sum)
  ∧ (processDays 100000 [] 100 100 [bucketA, bucketB]).map (fun p => p.netWorth)
      = [110, 105] := by
  refine ⟨?_, ?_, by decide⟩
  · intro s u rands days k hk
    have h1 : ((processDays u rands s s days).getD k defaultPoint).netWorth
        = ((processDays u rands s s days).map (fun p => p.netWorth)).getD k 0 :=
      (map_getD (fun p : TimelinePoint => p.netWorth) defaultPoint
        (processDays u rands s s days) k).symm
    rw [h1, processDays_map_netWorth]
    exact netWorths_getD s _ k (by simpa using hk)
  · intro s u rands days
    rw [processDays_map_netWorth]
    exact netWorths_getLastD _ s

/-- C3 witness: the accumulation law instantiated on the concrete two-day
scenario at k = 1. -/
theorem c3_witness :
    ((processDays 100000 [] 100 100 [bucketA, bucketB]).getD 1 defaultPoint).netWorth
      = 100 + (([bucketA, bucketB].map fun d => d.dailyProfit).take (1 + 1)).sum :=
  c3_networth_accumulation.1 100 100000 [] [bucketA, bucketB] 1 (by decide)

/-- C4: per-day ROI equals (daily_profit * 100) / (finished_trades *
100000), and is 0 (not an error) when finished_trades is 0; growth of day
k+1 uses the previous day's ending net worth — amended: growth is 0
whenever that previous net worth is not strictly positive (the code guards
with > 0), not only when it is exactly 0; the spec scenario gives growth
(-5 * 100) / 110 on day 2. -/
theorem c4_roi_growth :
    (∀ (rands : List Nat) (cum prev : Int) (days : List DailyBucket),
        (processDays 100000 rands cum prev days).map (fun p => p.roi)
          = days.map fun d =>
              if d.finishedTrades = 0 then 0
              else ((d.dailyProfit * 100 : Int) : Rat)
                    / ((((d.finishedTrades : Int) * 100000 : Int) : Int) : Rat))
  ∧ (∀ (s u : Int) (rands : List Nat) (days : List DailyBucket) (k : Nat),
        k + 1 < days.length →
        ((processDays u rands s s days).getD (k + 1) defaultPoint).growth
          = if 0 < ((processDays u rands s s days).getD k defaultPoint).netWorth
            then (((days.getD (k + 1) defaultBucket).dailyProfit * 100 : Int) : Rat)
                  / ((((processDays u rands s s days).getD k defaultPoint).netWorth : Int) : Rat)
            else 0)
  ∧ (∀ (s u : Int) (rands : List Nat) (days : List DailyBucket),
        days ≠ [] →
        ((processDays u rands s s days).getD 0 defaultPoint).growth
          = if 0 < s
            then (((days.getD 0 defaultBucket).dailyProfit * 100 : Int) : Rat) / ((s : Int) : Rat)
            else 0)
  ∧ ((processDays 100000 [] 100 100 [bucketA, bucketB]).getD 1 defaultPoint).growth
      = ((-5 * 100 : Int) : Rat) / ((110 : Int) : Rat) := by
  refine ⟨?_, ?_, ?_, rfl⟩
  · intro rands cum prev days
    induction days generalizing rands cum prev with
    | nil => rfl
    | cons d rest ih =>
      simp only [processDays, List.map_cons, ih, List.cons.injEq, and_true]
      simpa [stepDay] using roi_if_eq d
  · intro s u rands days k hk
    have e1 : ((processDays u rands s s days).getD (k + 1) defaultPoint).growth
        = (growthsAux s s (days.map fun d => d.dailyProfit)).getD (k + 1) 0 := by
      rw [← processDays_map_growth u rands s s days]
      exact (map_getD (fun p : TimelinePoint => p.growth) defaultPoint
        (processDays u rands s s days) (k + 1)).symm
    have e2 : ((processDays u rands s s days).getD k defaultPoint).netWorth
        = (netWorths s (days.map fun d => d.dailyProfit)).getD k 0 := by
      rw [← processDays_map_netWorth u rands s s days]
      exact (map_getD (fun p : TimelinePoint => p.netWorth) defaultPoint
        (processDays u rands s s days) k).symm
    have e3 : (days.getD (k + 1) defaultBucket).dailyProfit
        = (days.map fun d => d.dailyProfit).getD (k + 1) 0 :=
      (map_getD (fun d : DailyBucket => d.dailyProfit) defaultBucket days (k + 1)).symm
    rw [e1, e2, e3]
    exact growthsAux_getD_succ _ s s k (by simpa using hk)
  · intro s u rands days hne
    cases days with
    | nil => exact absurd rfl hne
    | cons d rest => simp [processDays, stepDay]

/-- C4 witness: the growth law instantiated on the concrete two-day
scenario at day 2. -/
theorem c4_witness :
    ((processDays 100000 [] 100 100 [bucketA, bucketB]).getD (0 + 1) defaultPoint).growth
      = if 0 < ((processDays 100000 [] 100 100 [bucketA, bucketB]).getD 0 defaultPoint).netWorth
        then ((([bucketA, bucketB].getD (0 + 1) defaultBucket).dailyProfit * 100 : Int) : Rat)
              / ((((processDays 100000 [] 100 100 [bucketA, bucketB]).getD 0 defaultPoint).netWorth : Int) : Rat)
        else 0 :=
  c4_roi_growth.2.1 100 100000 [] [bucketA, bucketB] 0 (by decide)

/-- C4 counterexample: after a large loss the previous day's ending net
worth is -102000000 (non-zero), the claim's formula gives the non-zero
value (10 * 100) / (-102000000), but the code computes growth = 0 because
its guard is previousDayNetWorth > 0. -/
theorem c4_counterexample :
    ((processDays 100000 [] 198000000 198000000 [bucketLoss, bucketAfter]).getD 0
        defaultPoint).netWorth = -102000000
  ∧ ((processDays 100000 [] 198000000 198000000 [bucketLoss, bucketAfter]).getD 1
        defaultPoint).growth = 0
  ∧ ((10 * 100 : Int) : Rat) / ((-102000000 : Int) : Rat) ≠ 0 := by
  refine ⟨by decide, rfl, by norm_num⟩

/-- C5: the timeline is NOT deterministic — the per-day item count is a
random draw: two runs over the same store state with different draws
produce different outputs, and whatever the draw, the items value always
lies in 1..10 (so it cannot be a true distinct-item count above 10). -/
theorem c5_items_random :
    ((timelineFromDaily [0] [bucketA]).getD 0 defaultPoint).items
      ≠ ((timelineFromDaily [1] [bucketA]).getD 0 defaultPoint).items
  ∧ timelineFromDaily [0] [bucketA] ≠ timelineFromDaily [1] [bucketA]
  ∧ (∀ rand : Nat,
      1 ≤ (stepDay 100000 rand 198000000 198000000 bucketA).items ∧
      (stepDay 100000 rand 198000000 198000000 bucketA).items ≤ 10) := by
  refine ⟨by decide, ?_, ?_⟩
  · intro h
    exact absurd (congrArg (fun l => (l.getD 0 defaultPoint).items) h) (by decide)
  · intro rand
    simp only [stepDay]
    omega

/-- C6: the starting net worth and the unit-investment estimate are
embedded constants (198000000 and 100000) in getTimelineData — amended:
the code's timeline coincides with the spec's parameterized core exactly
at those constant values; the parameterization shows both values flow into
the net-worth accumulation, and a different starting value yields a
different output. -/
theorem c6_hardcoded_constants :
    (∀ (rands : List Nat) (dailyData : List DailyBucket),
        timelineFromDaily rands dailyData = timelineCore 198000000 100000 rands dailyData)
  ∧ (∀ (s u : Int) (rands : List Nat) (days : List DailyBucket),
        (processDays u rands s s days).map (fun p => p.netWorth)
          = netWorths s (days.map fun d => d.dailyProfit))
  ∧ timelineCore 100 100000 [] [bucketA, bucketB]
      ≠ timelineCore 198000000 100000 [] [bucketA, bucketB] := by
  refine ⟨fun rands dailyData => rfl,
    fun s u rands days => processDays_map_netWorth u rands s s days, ?_⟩
  intro h
  exact absurd (congrArg (fun l => (l.getD 0 defaultPoint).netWorth) h) (by decide)

/-- C6 counterexample: on the spec scenario the code's timeline starts
from 198000000 (net worth 198000005 on the latest day), not from the
configured starting net worth 100 (which would give 105): the starting
value is not an externally supplied parameter of the computation. -/
theorem c6_counterexample :
    ((timelineFromDaily [] [bucketA, bucketB]).getD 0 defaultPoint).netWorth = 198000005
  ∧ ((timelineCore 100 100000 [] [bucketA, bucketB]).getD 0 defaultPoint).netWorth = 105
  ∧ timelineFromDaily [] [bucketA, bucketB] ≠ timelineCore 100 100000 [] [bucketA, bucketB] := by
  refine ⟨by decide, by decide, ?_⟩
  intro h
  exact absurd (congrArg (fun l => (l.getD 0 defaultPoint).netWorth) h) (by decide)

/-- C1 counterexample: a record whose status is "finished" (equal to
"FINISHED" up to case only) contributes nothing to total_profit,
completed_flips, top_items, or the daily rollup's FINISHED-based fields:
the aggregation comparisons are case-sensitive. -/
theorem c1_counterexample :
    sqlUpper recLow.status = "FINISHED"
  ∧ recLow.profit = 5
  ∧ (getDashboardStats [recLow]).totalProfit = 0
  ∧ (getDashboardStats [recLow]).completedFlips = 0
  ∧ (getDashboardStats [recLow]).topItems = []
  ∧ (getDailyReturns [recLow]).map (fun b => b.dailyProfit) = [0]
  ∧ (getDailyReturns [recLow]).map (fun b => b.finishedTrades) = [0]
  ∧ (5 : Int) ≠ 0 := by
  decide

/-- C1: status comparisons in the aggregation engine are case-SENSITIVE —
amended: a record whose status differs from the exact string "FINISHED"
(resp. "SELLING") contributes nothing to the FINISHED (resp. SELLING)
aggregates even if it matches up to case; only the record-listing filter
getRecords compares case-insensitively (UPPER on both sides). -/
theorem c1_case_sensitive_status :
    (∀ (st : List Record) (r : Record), r.status ≠ "FINISHED" →
        (getDashboardStats (r :: st)).totalProfit = (getDashboardStats st).totalProfit
      ∧ (getDashboardStats (r :: st)).completedFlips = (getDashboardStats st).completedFlips)
  ∧ (∀ (st : List Record) (r : Record) (d : Nat), r.status ≠ "FINISHED" →
        (bucketFor (r :: st) d).dailyProfit = (bucketFor st d).dailyProfit
      ∧ (bucketFor (r :: st) d).finishedTrades = (bucketFor st d).finishedTrades)
  ∧ (∀ (st : List Record) (r : Record) (d : Nat), r.status ≠ "SELLING" →
        (bucketFor (r :: st) d).activeTrades = (bucketFor st d).activeTrades)
  ∧ (∀ st : List Record, getRecords st (some "finished") = getRecords st (some "FINISHED")) := by
  refine ⟨?_, ?_, ?_, ?_⟩
  · intro st r h
    have hb : (r.status == "FINISHED") = false := beq_eq_false_iff_ne.mpr h
    constructor <;> simp [getDashboardStats, finishedRecords, List.filter_cons, hb]
  · intro st r d h
    have hb : (r.status == "FINISHED") = false := beq_eq_false_iff_ne.mpr h
    cases hd : r.import_date == d <;>
      constructor <;> simp [bucketFor, List.filter_cons, hd, hb]
  · intro st r d h
    have hb : (r.status == "SELLING") = false := beq_eq_false_iff_ne.mpr h
    cases hd : r.import_date == d <;> simp [bucketFor, List.filter_cons, hd, hb]
  · intro st
    have h1 : sqlUpper "finished" = "FINISHED" := by decide
    have h2 : sqlUpper "FINISHED" = "FINISHED" := by decide
    have h3 : "finished".isEmpty = false := by decide
    have h4 : "FINISHED".isEmpty = false := by decide
    simp [getRecords, h1, h2, h3, h4]

/-- C1 witness: the case-sensitivity law instantiated on the lowercase
"finished" record. -/
theorem c1_witness :
    (getDashboardStats [recLow]).totalProfit
      = (getDashboardStats ([] : List Record)).totalProfit :=
  (c1_case_sensitive_status.1 [] recLow (by decide)).1

/-- C7: top_flips has length at most 10, is sorted by profit
non-increasing, and is drawn from all records with no status filter: every
element comes from the store, and when the store has at most 10 records
every record (whatever its status) appears. -/
theorem c7_top_flips (st : List Record) :
    (getDashboardStats st).topFlips.length ≤ 10
  ∧ List.Sorted profGE (getDashboardStats st).topFlips
  ∧ (∀ r : Record, r ∈ (getDashboardStats st).topFlips → r ∈ st)
  ∧ (st.length ≤ 10 → ∀ r : Record, r ∈ st → r ∈ (getDashboardStats st).topFlips) := by
  refine ⟨?_, ?_, ?_, ?_⟩
  · show ((List.insertionSort profGE st).take 10).length ≤ 10
    exact List.length_take_le 10 _
  · show List.Sorted profGE ((List.insertionSort profGE st).take 10)
    exact (List.sorted_insertionSort profGE st).sublist (List.take_sublist 10 _)
  · intro r hr
    have hr' : r ∈ (List.insertionSort profGE st).take 10 := hr
    have := List.mem_of_mem_take hr'
    simpa using this
  · intro hlen r hr
    show r ∈ (List.insertionSort profGE st).take 10
    rw [List.take_of_length_le (by rw [List.length_insertionSort]; exact hlen)]
    simpa using hr

/-- C7 witness: on a singleton store the record appears in top_flips. -/
theorem c7_witness : recLow ∈ (getDashboardStats [recLow]).topFlips :=
  (c7_top_flips [recLow]).2.2.2 (by decide) recLow (by simp)

/-! Helper lemmas about the import loop. -/

theorem processRow_cases (today : Nat) (st : List Record) (row : RawRow) :
    ((processRow today st row).2 = RowOutcome.new ∧
      (processRow today st row).1.length = st.length + 1)
  ∨ ((processRow today st row).2 ≠ RowOutcome.new ∧ (processRow today st row).1 = st) := by
  cases hex : recordExists st (normalizeRow row).firstBuyTime (normalizeRow row).lastSellTime
      (normalizeRow row).item with
  | true => right; simp [processRow, hex]
  | false =>
    rcases insertRecord_cases today st (normalizeRow row) with hcase | ⟨r, hcase⟩
    · right; simp [processRow, hex, hcase]
    · left; simp [processRow, hex, hcase]

theorem importLoop_errors (today : Nat) (rows : List (RawRow × Bool)) :
    ∀ st : List Record, (importLoop today st rows).e = (rows.filter fun p => p.2).length := by
  induction rows with
  | nil => intro st; rfl
  | cons rf rest ih =>
    intro st
    obtain ⟨row, fault⟩ := rf
    cases fault with
    | true => simp [importLoop, ih st]
    | false =>
      rcases houtc : (processRow today st row).2 with _ | _ | _ <;>
        simp [importLoop, houtc, ih]

theorem importLoop_store_length (today : Nat) (rows : List (RawRow × Bool)) :
    ∀ st : List Record,
      (importLoop today st rows).store.length = st.length + (importLoop today st rows).n := by
  induction rows with
  | nil => intro st; rfl
  | cons rf rest ih =>
    intro st
    obtain ⟨row, fault⟩ := rf
    cases fault with
    | true => simpa [importLoop] using ih st
    | false =>
      rcases processRow_cases today st row with ⟨hnew, hlen⟩ | ⟨hnot, hst⟩
      · have h1 := ih (processRow today st row).1
        simp [importLoop, hnew]
        omega
      · rcases houtc : (processRow today st row).2 with _ | _ | _
        · exact absurd houtc hnot
        · have h1 := ih (processRow today st row).1
          rw [hst] at h1
          simp [importLoop, houtc, hst, h1]
        · have h1 := ih (processRow today st row).1
          rw [hst] at h1
          simp [importLoop, houtc, hst, h1]

theorem importLoop_sum_le (today : Nat) (rows : List (RawRow × Bool)) :
    ∀ st : List Record,
      (importLoop today st rows).n + (importLoop today st rows).d + (importLoop today st rows).e
        ≤ rows.length := by
  induction rows with
  | nil => intro st; simp [importLoop]
  | cons rf rest ih =>
    intro st
    obtain ⟨row, fault⟩ := rf
    cases fault with
    | true =>
      have h1 := ih st
      simp [importLoop]
      omega
    | false =>
      have h1 := ih (processRow today st row).1
      rcases houtc : (processRow today st row).2 with _ | _ | _ <;>
        simp [importLoop, houtc] <;> omega

/-- C8: the import batch is processed row by row and never aborts: a
faulting row only increments errors and the loop continues (equationally),
a row whose natural key already exists increments duplicates, a row the
store reports as inserted increments new_records; errors counts exactly
the faulted rows, the store grows by exactly newRecords, totalInDb is the
store's total count after the whole batch, and the three counters never
exceed the number of rows. -/
theorem c8_import_batch (today : Nat) (st : List Record) (rows : List (RawRow × Bool)) :
    (processCsvFile today st rows).2.errors = (rows.filter fun p => p.2).length
  ∧ (processCsvFile today st rows).2.totalInDb = (processCsvFile today st rows).1.length
  ∧ (processCsvFile today st rows).1.length
      = st.length + (processCsvFile today st rows).2.newRecords
  ∧ (processCsvFile today st rows).2.newRecords + (processCsvFile today st rows).2.duplicates
      + (processCsvFile today st rows).2.errors ≤ rows.length
  ∧ (∀ (row : RawRow) (rest : List (RawRow × Bool)),
        importLoop today st ((row, true) :: rest)
          = { importLoop today st rest with e := (importLoop today st rest).e + 1 })
  ∧ (∀ (row : RawRow) (rest : List (RawRow × Bool)),
        recordExists st (normalizeRow row).firstBuyTime (normalizeRow row).lastSellTime
          (normalizeRow row).item = true →
        importLoop today st ((row, false) :: rest)
          = { importLoop today st rest with d := (importLoop today st rest).d + 1 })
  ∧ (∀ (row : RawRow) (rest : List (RawRow × Bool)),
        (processRow today st row).2 = RowOutcome.new →
        importLoop today st ((row, false) :: rest)
          = { importLoop today (processRow today st row).1 rest with
              n := (importLoop today (processRow today st row).1 rest).n + 1 }) := by
  refine ⟨importLoop_errors today rows st, rfl, importLoop_store_length today rows st,
    importLoop_sum_le today rows st, ?_, ?_, ?_⟩
  · intro row rest
    simp [importLoop]
  · intro row rest hex
    simp [importLoop, processRow, hex]
  · intro row rest hnew
    simp [importLoop, hnew]

/-- C8 witness: re-importing the already-imported row is counted as a
duplicate and the loop result is the rest-of-batch result with duplicates
incremented. -/
theorem c8_witness :
    importLoop 0 stAbc [(abcRow, false)]
      = { importLoop 0 stAbc [] with d := (importLoop 0 stAbc []).d + 1 } :=
  (c8_import_batch 0 stAbc [(abcRow, false)]).2.2.2.2.2.1 abcRow [] (by decide)

/-- C9: numeric normalization never throws and defaults to 0: an
unparsable or missing numeric cell normalizes to 0 (shown generically and
for every numeric field of the empty row), and the row with
profit = "abc" normalizes to profit 0 and still proceeds through
duplicate-check and insert (it is stored). -/
theorem c9_numeric_defaults :
    (∀ v : Option String, jsParseIntOpt v = none → parseIntOr0 v = 0)
  ∧ jsParseIntStr "abc" = none
  ∧ (normalizeRow abcRow).profit = 0
  ∧ (normalizeRow ([] : RawRow)).bought = 0
  ∧ (normalizeRow ([] : RawRow)).sold = 0
  ∧ (normalizeRow ([] : RawRow)).avgBuyPrice = 0
  ∧ (normalizeRow ([] : RawRow)).avgSellPrice = 0
  ∧ (normalizeRow ([] : RawRow)).tax = 0
  ∧ (normalizeRow ([] : RawRow)).profit = 0
  ∧ (normalizeRow ([] : RawRow)).profitEa = 0
  ∧ (processRow 0 [] abcRow).2 = RowOutcome.new
  ∧ (processRow 0 [] abcRow).1.length = 1 := by
  refine ⟨?_, by decide, by decide, by decide, by decide, by decide, by decide, by decide,
    by decide, by decide, by decide, by decide⟩
  intro v h
  simp [parseIntOr0, h]

/-- C9 witness: the generic parse-failure default instantiated on "abc". -/
theorem c9_witness : parseIntOr0 (some "abc") = 0 :=
  c9_numeric_defaults.1 (some "abc") (by decide)

end OSRSTracker
